import Mathlib

/-!
Verification of `translit_api_demo.py` (function `get_kannada_transliteration`
and the `__main__` read-eval-print loop).

The embedding models:
- decoded JSON values (`Json`), with Python subscripting (`subscript`),
  truthiness (`truthy`) and `== "SUCCESS"` comparison (`pyEqStr`);
- the network interaction abstractly (`NetResult`): the single
  `requests.get` + `raise_for_status` either raises a
  `requests.exceptions.RequestException` (connection error, timeout,
  non-2xx status) or yields a body that is either not JSON
  (`response.json()` raises `json.JSONDecodeError`) or decodes to a `Json`
  value;
- the function's observable outcome (`Outcome`): the returned value, or
  which `except` branch fired (each branch returns Python `None` but
  prints distinct diagnostics), or an exception that escapes uncaught;
- the number of outbound requests the call performs (second component of
  the result pair);
- one iteration of the interactive `while True` loop (`loopIter`).

JSON numbers are modelled as integers: the program performs no numeric
operation on them other than Python truthiness.
-/

/-- A decoded JSON value (the result of `response.json()`). -/
inductive Json where
  | null
  | bool (b : Bool)
  | num (n : Int)
  | str (s : String)
  | list (xs : List Json)
  | dict (entries : List (String × Json))

/-- Python exceptions that subscripting a decoded JSON value can raise.
`data[i]` (with a non-negative integer `i`) raises `IndexError` on a
too-short list or string, `KeyError` on a dict (JSON object keys are
strings, so an integer key is never present), and `TypeError` on
`None`, booleans and numbers. -/
inductive Exn where
  | indexError
  | typeError
  | keyError
deriving DecidableEq

/-- Python subscripting `v[i]` for a decoded JSON value `v` and a
non-negative integer index `i` (the source only uses indices 0 and 1).
Indexing a string yields a one-character string. -/
def subscript : Json → Nat → Except Exn Json
  | .list xs, i =>
      match xs.get? i with
      | some v => .ok v
      | none => .error .indexError
  | .str s, i =>
      match s.data.get? i with
      | some c => .ok (.str (String.mk [c]))
      | none => .error .indexError
  | .dict _, _ => .error .keyError
  | .null, _ => .error .typeError
  | .bool _, _ => .error .typeError
  | .num _, _ => .error .typeError

/-- Python `v == t` where `t` is a string literal: true exactly when `v`
is an equal string; values of any other type compare unequal. -/
def pyEqStr : Json → String → Bool
  | .str s, t => s == t
  | _, _ => false

/-- Python truthiness of a decoded JSON value. -/
def truthy : Json → Bool
  | .null => false
  | .bool b => b
  | .num n => n != 0
  | .str s => s != ""
  | .list xs => !xs.isEmpty
  | .dict es => !es.isEmpty

/-- Lines 61-66 of the source, before exception handling:
`if data[0] == "SUCCESS" and data[1]: return data[1][0][1] else: return []`.
`and` short-circuits, so `data[1]` is only evaluated when the status
comparison succeeded; `data[1]` is referenced twice in the source but
subscripting is side-effect free, so it is evaluated once here. -/
def tryExtract (data : Json) : Except Exn Json :=
  match subscript data 0 with
  | .error e => .error e
  | .ok status =>
    if pyEqStr status "SUCCESS" then
      match subscript data 1 with
      | .error e => .error e
      | .ok payload =>
        if truthy payload then
          match subscript payload 0 with
          | .error e => .error e
          | .ok firstEntry =>
            match subscript firstEntry 1 with
            | .error e => .error e
            | .ok suggestions => .ok suggestions
        else .ok (.list [])
    else .ok (.list [])

/-- The observable outcome of one call to `get_kannada_transliteration`:
a returned value, one of the three `except` branches (each prints its own
diagnostics and returns Python `None`), or an exception that none of the
handlers catches and that propagates out of the function. -/
inductive Outcome where
  | ok (v : Json)
  | errRequest (msg : String)
  | errDecode (raw : String)
  | errParse (data : Json)
  | raised (e : Exn)

/-- The structure-unwrapping step together with the
`except (IndexError, TypeError)` handler of lines 74-76: those two
exception classes are turned into the parse-error branch (which prints
the decoded `data`); a `KeyError` is not in the handled tuple and
escapes the function uncaught. -/
def parseData (data : Json) : Outcome :=
  match tryExtract data with
  | .ok v => .ok v
  | .error .indexError => .errParse data
  | .error .typeError => .errParse data
  | .error .keyError => .raised .keyError

/-- The body the HTTP layer delivered when the request itself succeeded:
either raw text that is not valid JSON (so `response.json()` raises
`json.JSONDecodeError`) or a decoded JSON value. -/
inductive NetBody where
  | notJson (raw : String)
  | json (v : Json)

/-- One mocked network interaction: `requests.get` + `raise_for_status`
either raises a `RequestException` (connection error, timeout, DNS
failure, or non-2xx HTTP status such as 500) carrying a message, or
succeeds with a body. -/
inductive NetResult where
  | failure (msg : String)
  | success (body : NetBody)

/-- `get_kannada_transliteration(input_text)` from the source, over a
mocked network interaction. The second component counts the outbound
HTTP requests the call performs. Line 15: an empty string is falsy, so
`if not input_text: return []` fires before any request. Otherwise
exactly one `requests.get` is issued (no retry), and the three `except`
branches map the three failure modes to their outcomes. -/
def get_kannada_transliteration (input_text : String) (net : NetResult) : Outcome × Nat :=
  if input_text = "" then (.ok (.list []), 0)
  else
    match net with
    | .failure msg => (.errRequest msg, 1)
    | .success (.notJson raw) => (.errDecode raw, 1)
    | .success (.json data) => (parseData data, 1)

/-- The Python value the call hands back to its caller: `some (some v)`
when it returns a value `v`, `some none` when it returns `None` (all
three `except` branches do), and `none` when no value is returned
because an uncaught exception propagates. -/
def returnedValue : Outcome → Option (Option Json)
  | .ok v => some (some v)
  | .errRequest _ => some none
  | .errDecode _ => some none
  | .errParse _ => some none
  | .raised _ => none

/-- Whether the outcome is one of the three caught error branches. -/
def isCaughtErr : Outcome → Bool
  | .errRequest _ => true
  | .errDecode _ => true
  | .errParse _ => true
  | _ => false

/-- Whether a JSON value is a list whose elements are all strings. -/
def isStringList : Json → Bool
  | .list xs => xs.all fun x => match x with | .str _ => true | _ => false
  | _ => false

/-- Python `s.lower()`, character by character (ASCII suffices for the
comparison against the literal `'quit'`). -/
def pyLower (s : String) : String :=
  String.mk (s.data.map Char.toLower)

/-- Python `not s.strip()`: whether the line is blank, i.e. every
character is whitespace (stripping leaves the empty, falsy string). -/
def isBlank (s : String) : Bool :=
  s.data.all Char.isWhitespace

/-- What one iteration of the `__main__` loop prints for a given result
value of `get_kannada_transliteration`. -/
inductive Printed where
  | errorMsg
  | noSuggestions
  | suggestionLines (xs : List Json)
  | suggestionChars (s : String)
  | suggestionKeys (ks : List String)

/-- The outcome of one iteration of the `while True` loop in `__main__`:
the loop breaks on `quit`, silently re-prompts on blank input, prints
something and re-prompts, or dies on an uncaught exception. -/
inductive LoopOutcome where
  | exit
  | ignoredBlank
  | printed (p : Printed)
  | crashed (e : Exn)

/-- One iteration of the `__main__` loop (lines 80-97) on input `line`
with mocked network `net`. `text_to_convert.lower() == 'quit'` breaks;
blank (whitespace-only) input is skipped; otherwise the function is
called: an uncaught exception propagates through the loop (no handler
there), a `None` result prints the error message, a falsy result prints
"No suggestions found.", and a truthy result is enumerated — which
itself raises `TypeError` if the value is not iterable (a number or a
boolean), iterates characters of a string, and keys of a dict. -/
def loopIter (line : String) (net : NetResult) : LoopOutcome :=
  if pyLower line = "quit" then .exit
  else if isBlank line then .ignoredBlank
  else
    match (get_kannada_transliteration line net).1 with
    | .raised e => .crashed e
    | .errRequest _ => .printed .errorMsg
    | .errDecode _ => .printed .errorMsg
    | .errParse _ => .printed .errorMsg
    | .ok .null => .printed .errorMsg
    | .ok v =>
      if truthy v then
        match v with
        | .list xs => .printed (.suggestionLines xs)
        | .str s => .printed (.suggestionChars s)
        | .dict es => .printed (.suggestionKeys (es.map Prod.fst))
        | _ => .crashed .typeError
      else .printed .noSuggestions

/-- Claim C5: for every empty `inputText`, `transliterate` returns an
empty sequence immediately and performs no network call — whatever the
network would have answered, the result is the empty list and the
request count is zero. -/
theorem claim5_empty_input_returns_empty_without_request (net : NetResult) :
    get_kannada_transliteration "" net = (.ok (.list []), 0) := by
  rfl

/-- Claim C1: for every decoded provider response of the well-formed
success shape `["SUCCESS", [[echoedInput, suggestions, ...], ...]]` with
non-empty payload, the call returns exactly the suggestions array taken
from the first payload entry's second element. -/
theorem claim1_success_shape_returns_suggestions
    (input echoed : String) (suggs : List String) (rest restEntries : List Json)
    (h : input ≠ "") :
    get_kannada_transliteration input
      (.success (.json (.list [.str "SUCCESS",
        .list (.list (.str echoed :: .list (suggs.map .str) :: rest) :: restEntries)])))
      = (.ok (.list (suggs.map .str)), 1) := by
  unfold get_kannada_transliteration
  rw [if_neg h]
  rfl

/-- Witness for C1: the spec's concrete example
`["SUCCESS", [["hello", ["ಹ", "ಹಲ"], [], {}]]]` yields exactly
`["ಹ", "ಹಲ"]`. -/
theorem claim1_witness :
    get_kannada_transliteration "hello"
      (.success (.json (.list [.str "SUCCESS",
        .list [.list [.str "hello", .list [.str "ಹ", .str "ಹಲ"], .list [], .dict []]]])))
      = (.ok (.list [.str "ಹ", .str "ಹಲ"]), 1) :=
  claim1_success_shape_returns_suggestions "hello" "hello" ["ಹ", "ಹಲ"]
    [.list [], .dict []] [] (by decide)

/-- Claim C3: for every decoded JSON response that is a list whose first
element is not the literal `"SUCCESS"` marker, or whose second element
(the payload array) is empty, the call returns the empty list as a
valid non-error outcome. The `and` in line 61 short-circuits, so when
the status comparison fails the second element is never even accessed. -/
theorem claim3_non_success_or_empty_payload_returns_empty
    (input : String) (e0 : Json) (rest : List Json) (h : input ≠ "")
    (hc : pyEqStr e0 "SUCCESS" = false ∨ rest.head? = some (Json.list [])) :
    get_kannada_transliteration input (.success (.json (.list (e0 :: rest))))
      = (.ok (.list []), 1) := by
  unfold get_kannada_transliteration
  rw [if_neg h]
  have hx : tryExtract (.list (e0 :: rest)) = .ok (.list []) := by
    rcases hc with hc | hc
    · unfold tryExtract
      simp [subscript, hc]
    · cases rest with
      | nil => simp at hc
      | cons a tl =>
        obtain rfl : a = Json.list [] := by simpa using hc
        unfold tryExtract
        cases hE : pyEqStr e0 "SUCCESS" <;> simp [subscript, hE, truthy]
  simp [parseData, hx]

/-- Witness for C3: the spec's concrete example `["SUCCESS", []]` yields
the empty list, not an error. -/
theorem claim3_witness :
    get_kannada_transliteration "xyz"
      (.success (.json (.list [.str "SUCCESS", .list []])))
      = (.ok (.list []), 1) :=
  claim3_non_success_or_empty_payload_returns_empty "xyz" (.str "SUCCESS")
    [.list []] (by decide) (.inr rfl)

/-- Claim C7: for every response body that is not valid JSON (while the
HTTP request itself succeeded), the call takes the decode-error branch,
which carries the raw response text, and no other outcome occurs. -/
theorem claim7_non_json_body_is_decode_error (input raw : String) (h : input ≠ "") :
    get_kannada_transliteration input (.success (.notJson raw))
      = (.errDecode raw, 1) := by
  unfold get_kannada_transliteration
  rw [if_neg h]

/-- Witness for C7 at a concrete non-JSON body. -/
theorem claim7_witness :
    get_kannada_transliteration "namaste" (.success (.notJson "<html>oops</html>"))
      = (.errDecode "<html>oops</html>", 1) :=
  claim7_non_json_body_is_decode_error "namaste" "<html>oops</html>" (by decide)

/-- Claim C8: for every network-level failure (connection error, timeout,
or non-2xx HTTP status such as 500, all of which raise
`requests.exceptions.RequestException` at lines 32-33), the call takes
the transport-error branch carrying the underlying cause, and issues
exactly one outbound request — no retry. -/
theorem claim8_transport_failure_one_request (input msg : String) (h : input ≠ "") :
    get_kannada_transliteration input (.failure msg) = (.errRequest msg, 1) := by
  unfold get_kannada_transliteration
  rw [if_neg h]

/-- Witness for C8 at a concrete HTTP 500 failure. -/
theorem claim8_witness :
    get_kannada_transliteration "namaskara" (.failure "500 Server Error")
      = (.errRequest "500 Server Error", 1) :=
  claim8_transport_failure_one_request "namaskara" "500 Server Error" (by decide)

/-- Counterexample to claim C2: the decoded response
`["SUCCESS", [["x", 42]]]` does not match the expected shape (the
suggestions element is the number 42, not an array of strings), yet the
call does not fail with the malformed-response branch: line 62 extracts
`data[1][0][1] = 42` without raising, and the number 42 is returned as a
success outcome. -/
theorem claim2_counterexample :
    get_kannada_transliteration "x"
      (.success (.json (.list [.str "SUCCESS", .list [.list [.str "x", .num 42]]])))
      = (.ok (.num 42), 1) := by
  rfl

/-- Amended claim C2: a shape mismatch reaches the malformed-response
branch only when the unvalidated extraction `data[1][0][1]` raises an
`IndexError` or `TypeError`; in particular every response
`["SUCCESS", [[x0], ...]]` whose first payload entry has arity 1
(missing the suggestions element) fails that way, with the branch
carrying the decoded structure. Mismatched structures whose extraction
succeeds are instead returned as a success outcome. -/
theorem claim2_amended_extraction_exception_is_parse_error
    (input : String) (x0 : Json) (restEntries : List Json) (h : input ≠ "") :
    get_kannada_transliteration input
      (.success (.json (.list [.str "SUCCESS", .list (.list [x0] :: restEntries)])))
      = (.errParse (.list [.str "SUCCESS", .list (.list [x0] :: restEntries)]), 1) := by
  unfold get_kannada_transliteration
  rw [if_neg h]
  rfl

/-- Witness for amended C2: the spec's concrete example
`["SUCCESS", [["x"]]]` (missing the suggestions element) takes the
malformed-response branch. -/
theorem claim2_witness :
    get_kannada_transliteration "ka"
      (.success (.json (.list [.str "SUCCESS", .list [.list [.str "x"]]])))
      = (.errParse (.list [.str "SUCCESS", .list [.list [.str "x"]]]), 1) :=
  claim2_amended_extraction_exception_is_parse_error "ka" (.str "x") [] (by decide)

/-- Counterexample to claim C4: the provider returns six suggestions
while `num` (maxSuggestions) is 5, and the call returns all six — the
source never truncates; `num` is only sent as a request parameter. -/
theorem claim4_counterexample :
    (get_kannada_transliteration "kan"
      (.success (.json (.list [.str "SUCCESS", .list [.list [.str "kan",
        .list [.str "k1", .str "k2", .str "k3", .str "k4", .str "k5", .str "k6"],
        .list [], .dict []]]])))).1
      = .ok (.list [.str "k1", .str "k2", .str "k3", .str "k4", .str "k5", .str "k6"])
    ∧ 5 < ([Json.str "k1", .str "k2", .str "k3", .str "k4", .str "k5", .str "k6"] : List Json).length :=
  ⟨rfl, by decide⟩

/-- Amended claim C4: no truncation is performed — for every well-formed
success response whose suggestions array has more than 5 entries, the
call returns the entire suggestions array in its original order, with
its full length. -/
theorem claim4_amended_no_truncation
    (input echoed : String) (suggs rest restEntries : List Json)
    (h : input ≠ "") (hlen : 5 < suggs.length) :
    (get_kannada_transliteration input
      (.success (.json (.list [.str "SUCCESS",
        .list (.list (.str echoed :: .list suggs :: rest) :: restEntries)])))).1
      = .ok (.list suggs) := by
  unfold get_kannada_transliteration
  rw [if_neg h]
  rfl

/-- Witness for amended C4 at six concrete suggestions. -/
theorem claim4_witness :
    5 < ([Json.str "b1", .str "b2", .str "b3", .str "b4", .str "b5", .str "b6"] : List Json).length ∧
    (get_kannada_transliteration "he"
      (.success (.json (.list [.str "SUCCESS",
        .list [.list [.str "he",
          .list [Json.str "b1", .str "b2", .str "b3", .str "b4", .str "b5", .str "b6"]]]])))).1
      = .ok (.list [Json.str "b1", .str "b2", .str "b3", .str "b4", .str "b5", .str "b6"]) :=
  ⟨by decide, claim4_amended_no_truncation "he" "he"
    [Json.str "b1", .str "b2", .str "b3", .str "b4", .str "b5", .str "b6"] [] []
    (by decide) (by decide)⟩

/-- Counterexample to claim C6: for the decoded response
`["SUCCESS", [["y", ["ಕ", 7]]]]` the call succeeds with the list
`["ಕ", 7]`, which contains a number — a malformed, partially non-string
result delivered as a success rather than surfaced as a failure. -/
theorem claim6_counterexample :
    (get_kannada_transliteration "y"
      (.success (.json (.list [.str "SUCCESS",
        .list [.list [.str "y", .list [.str "ಕ", .num 7]]]])))).1
      = .ok (.list [.str "ಕ", .num 7])
    ∧ isStringList (.list [Json.str "ಕ", .num 7]) = false :=
  ⟨rfl, rfl⟩

/-- Amended claim C6: the successful result is not validated — the call
returns exactly whatever value sits at the first payload entry's second
element, whether or not it is a sequence of strings (it may be a bare
string, a number, or a list containing non-strings); only an extraction
that raises `IndexError` or `TypeError` is surfaced as a failure. -/
theorem claim6_amended_result_unvalidated
    (input : String) (v : Json) (h : input ≠ "") :
    (get_kannada_transliteration input
      (.success (.json (.list [.str "SUCCESS", .list [.list [.str "a", v]]])))).1
      = .ok v := by
  unfold get_kannada_transliteration
  rw [if_neg h]
  rfl

/-- Witness for amended C6: a bare (non-list) string is passed through
as the success result. -/
theorem claim6_witness :
    (get_kannada_transliteration "kavi"
      (.success (.json (.list [.str "SUCCESS",
        .list [.list [.str "a", .str "bare"]]])))).1
      = .ok (.str "bare") :=
  claim6_amended_result_unvalidated "kavi" (.str "bare") (by decide)

/-- Counterexample to claim C9: on the non-quit, non-blank input "abc",
a decoded JSON-object response makes `data[0]` raise `KeyError`, which
is not in the `except (IndexError, TypeError)` tuple; the exception
escapes `get_kannada_transliteration`, the loop body has no handler, and
the iteration crashes the process — a fatal error. -/
theorem claim9_counterexample :
    loopIter "abc" (.success (.json (.dict [("status", .str "SUCCESS")])))
      = .crashed .keyError := by
  rfl

/-- Amended claim C9: the loop recovers from every error the function
catches — for every non-quit, non-blank input line whose call ends in
one of the three caught error branches (all returned to the loop as
`None`), the iteration prints the error message and continues to
prompt. However, a `KeyError` raised while indexing a dict-shaped
response (and a `TypeError` from enumerating a truthy non-iterable
result) escapes uncaught and is fatal to the process. -/
theorem claim9_amended_caught_errors_reported
    (line : String) (net : NetResult)
    (hq : pyLower line ≠ "quit") (hb : isBlank line ≠ true)
    (he : isCaughtErr (get_kannada_transliteration line net).1 = true) :
    loopIter line net = .printed .errorMsg := by
  unfold loopIter
  rw [if_neg hq, if_neg hb]
  rcases hg : (get_kannada_transliteration line net).1 with v | m | r | d | e
  · rw [hg] at he
    simp [isCaughtErr] at he
  · rfl
  · rfl
  · rfl
  · rw [hg] at he
    simp [isCaughtErr] at he

/-- Witness for amended C9: a transport failure on input "ab" is
reported by the loop, which then continues. -/
theorem claim9_witness :
    loopIter "ab" (.failure "timeout") = .printed .errorMsg :=
  claim9_amended_caught_errors_reported "ab" (.failure "timeout")
    (by decide) (by decide) rfl



/-- Claim C10: the empty-result outcome is distinguishable from every
failure outcome at the level of the Python return value (the empty list
versus `None`), but the three caught error kinds — transport, decode and
malformed-shape — all return the same value `None`, so the caller cannot
tell from the returned value alone which error kind occurred. -/
theorem claim10_error_kinds_collapse_to_none
    (input msg raw : String) (x0 : Json) (h : input ≠ "") :
    returnedValue (get_kannada_transliteration input (.failure msg)).1 = some none ∧
    returnedValue (get_kannada_transliteration input (.success (.notJson raw))).1 = some none ∧
    returnedValue (get_kannada_transliteration input
      (.success (.json (.list [.str "SUCCESS", .list [.list [x0]]])))).1 = some none ∧
    returnedValue (get_kannada_transliteration input
      (.success (.json (.list [.str "SUCCESS", .list []])))).1 = some (some (.list [])) ∧
    (some (some (Json.list [])) : Option (Option Json)) ≠ some none := by
  refine ⟨?_, ?_, ?_, ?_, by simp⟩ <;>
  · unfold get_kannada_transliteration
    rw [if_neg h]
    rfl

/-- Witness for C10 at concrete failing and empty-result runs. -/
theorem claim10_witness :
    returnedValue (get_kannada_transliteration "hi" (.failure "conn reset")).1 = some none ∧
    returnedValue (get_kannada_transliteration "hi" (.success (.notJson "oops"))).1 = some none ∧
    returnedValue (get_kannada_transliteration "hi"
      (.success (.json (.list [.str "SUCCESS", .list [.list [.str "z"]]])))).1 = some none ∧
    returnedValue (get_kannada_transliteration "hi"
      (.success (.json (.list [.str "SUCCESS", .list []])))).1 = some (some (.list [])) ∧
    (some (some (Json.list [])) : Option (Option Json)) ≠ some none :=
  claim10_error_kinds_collapse_to_none "hi" "conn reset" "oops" (.str "z") (by decide)
